import Mathlib

/-!
Verification of the cart and email-verification flows of the
ItoroBlessingCateringSiteAPI repository, against its natural-language
specification.

The Django models, views and serializer logic that the claims are about are
embedded shallowly: database tables become lists of records, each Django view
becomes a pure function from a request and a store to a response and a new
store, and monetary values (DecimalField) become exact rationals.

Transactional semantics. The routed view add_dish (cart/views.py:26-122) is
decorated with transaction.atomic, but every exception handler is INSIDE the
decorated function: a caught exception makes the view return a Response
normally, so the surrounding transaction sees no exception and COMMITS all
writes performed so far. The embedding therefore threads the store through
the function and, in every error branch, returns the store as mutated up to
the point where the exception was raised. Only an exception escaping the
view would roll back, and none can: the final handler catches Exception.
-/

namespace Catering

/-- Dish (dish/models.py:69-135). Only the fields read by the embedded
operations are carried: id (pk), name, and price (DecimalField, embedded as
an exact rational). The remaining columns (slug, description, image,
category, is_available, timestamps, m2m relations) are never read or written
by the cart views and are omitted. Note that add_dish does not consult
is_available. -/
structure Dish where
  id : Nat
  name : String
  price : ℚ
  deriving DecidableEq

/-- ExtraItem (dish/models.py:47-66): a priced add-on. Fields carried: id,
name, price. The category foreign key and is_available flag are never
consulted by the cart flow. -/
structure ExtraItem where
  id : Nat
  name : String
  price : ℚ
  deriving DecidableEq

/-- Cart (cart/models.py:13-44). Fields carried: id (pk), cart_code
(UUIDField, embedded as an opaque string; the UUID format validation done by
the field type is not modelled, concrete inputs below use UUID-shaped
strings), and order_type (CharField with choices ORDER_TYPES =
(("pickup","Pickup"),("delivery","Delivery")), default "delivery"). The
user, is_active, paid, created_at and special_instruction columns are not
touched by the operations under verification and are omitted. -/
structure Cart where
  id : Nat
  cart_code : String
  order_type : String
  deriving DecidableEq

/-- CartItem (cart/models.py:47-69). The model declares exactly: cart (FK),
dish (FK, null=True, SET_NULL), quantity (IntegerField, default 1 - note:
not a PositiveIntegerField, so any integer is storable), and the extras
many-to-many through CartItemExtra (represented by the CartItemExtra rows in
the store). The model declares NO unit_price, NO total_price and NO
special_instruction column, although cart/serializers.py names all three;
consequently nothing price- or note-related can be persisted on this row. -/
structure CartItem where
  id : Nat
  cart : Nat
  dish : Option Nat
  quantity : Int
  deriving DecidableEq

/-- CartItemExtra (cart/models.py:71-106): join row between a CartItem and
an ExtraItem with its own quantity (IntegerField, default 1). -/
structure CartItemExtra where
  id : Nat
  cart_item : Nat
  extra : Nat
  quantity : Int
  deriving DecidableEq

/-- The relational store backing the cart app: one list per table, plus the
next primary key each table would hand out (auto-increment ids). -/
structure Store where
  carts : List Cart
  dishes : List Dish
  extra_items : List ExtraItem
  cartItems : List CartItem
  cartItemExtras : List CartItemExtra
  nextCartId : Nat
  nextCartItemId : Nat
  nextCartItemExtraId : Nat
  deriving DecidableEq

/-- Python str.lower() (applied to orderoption at cart/views.py:54),
modelled characterwise; defined structurally over the character list so
that concrete runs reduce inside the kernel. -/
def pyLower (s : String) : String :=
  ⟨s.data.map Char.toLower⟩

/-- Python int() applied to a dict key, as Django's pk coercion does inside
ExtraItem.objects.get(id=key): the numeric value for a canonical string of
decimal digits, none when int() would raise ValueError. Defined
structurally over the character list. -/
def pyToNat? (s : String) : Option Nat :=
  if s.data ≠ [] ∧ s.data.all (fun c => c.isDigit) then
    some (s.data.foldl (fun n c => n * 10 + (c.toNat - 48)) 0)
  else none

/-- Result of applying Python int() to a request-supplied value: a valid
integer, or a value on which int() raises (ValueError / TypeError), which
the view surfaces through its generic Exception handler. -/
inductive PyInt where
  | valid (n : Int)
  | invalid
  deriving DecidableEq

/-- One value of the extra_items mapping, i.e. the dict under one key:
data.get("quantity", 1) yields the quantity field when present (then int()
is applied to it), or the default 1 when absent. Entry values that are not
mappings at all (where data.get would raise AttributeError) are outside the
modelled payloads. -/
structure ExtraEntry where
  quantity : Option PyInt
  deriving DecidableEq

/-- The extra_items payload: either a JSON object (ordered key/value pairs,
as Python dict iteration preserves insertion order) or some non-mapping
value, which add_dish rejects with 400 after the isinstance check
(cart/views.py:83-87). -/
inductive ExtrasPayload where
  | dict (entries : List (String × ExtraEntry))
  | nonDict
  deriving DecidableEq

/-- The request body of POST /cart/add_item/ as read by add_dish
(cart/views.py:49-54) via request.data.get: every field is none when the
key is absent from the JSON body. -/
structure AddDishRequest where
  cart_code : Option String
  dish_id : Option Nat
  extra_items : Option ExtrasPayload
  note : Option String
  quantity : Option PyInt
  orderoption : Option String
  deriving DecidableEq

/-- The responses add_dish can produce (cart/views.py:98-122): the 201
success payload (carrying the cart item pk), the three 404 handlers, the
400 for a non-mapping extras payload, and the generic 400 of the final
except Exception handler. The created response exists in the source (lines
99-102) but is only reachable when CartItemSerializer can build its
fields, which for this model it cannot (see cartItemSerializerBuilds):
every request that completes its writes is in fact answered by the
generic 400. -/
inductive CartResponse where
  | created (cartItemId : Nat)
  | dishNotFound
  | extraNotFound
  | cartNotFound
  | extrasNotDict
  | unexpected
  deriving DecidableEq

/-- The field names CartItemSerializer declares as explicit serializer
fields (cart/serializers.py:57-62: dish_name, dish_id, cart_code,
extra_items, delivery_option). -/
def cartItemSerializerDeclaredFields : List String :=
  ["dish_name", "dish_id", "cart_code", "extra_items", "delivery_option"]

/-- The names resolvable on the CartItem model when DRF builds serializer
fields: its concrete columns and relations (cart/models.py:47-59: the pk,
cart, dish, quantity and the extras m2m). There is no unit_price,
total_price or special_instruction, and the model class has no attribute
or property of those names either. -/
def cartItemModelFieldNames : List String :=
  ["id", "cart", "dish", "quantity", "extras"]

/-- Meta.fields of CartItemSerializer (cart/serializers.py:66-79). -/
def cartItemSerializerMetaFields : List String :=
  ["id", "dish_id", "cart_code", "dish_name", "quantity", "unit_price",
   "total_price", "extra_items", "special_instruction", "delivery_option"]

/-- DRF ModelSerializer field construction, evaluated the first time
serializer.data is accessed (cart/views.py:98-101): every name in
Meta.fields must be a declared serializer field or resolvable on the
model; an unknown name makes build_unknown_field raise
ImproperlyConfigured. For CartItemSerializer the names unit_price,
total_price and special_instruction resolve nowhere, so this is false and
.data always raises, landing in the generic except Exception handler at
cart/views.py:118-122. -/
def cartItemSerializerBuilds : Bool :=
  cartItemSerializerMetaFields.all (fun f =>
    cartItemSerializerDeclaredFields.contains f || cartItemModelFieldNames.contains f)

/-- The final step of add_dish (cart/views.py:98-102): build
CartItemSerializer(cart_item), evaluate .data and answer 201. When the
serializer cannot build its fields the raised ImproperlyConfigured is
caught by the generic handler and the answer is the generic 400 instead -
with the writes already performed still committed, since
ImproperlyConfigured is not a database error and the handler sits inside
the transaction.atomic function. -/
def serializeAndRespond (itemId : Nat) : CartResponse :=
  if cartItemSerializerBuilds then CartResponse.created itemId
  else CartResponse.unexpected

/-- Cart.objects.get_or_create(cart_code=cart_code) (cart/views.py:55-57):
return the existing cart with this code, or insert a fresh one with the
column defaults (order_type "delivery") and a new pk. -/
def getOrCreateCart (code : String) (s : Store) : Cart × Store :=
  match s.carts.find? (fun c => c.cart_code = code) with
  | some c => (c, s)
  | none =>
    let c : Cart := { id := s.nextCartId, cart_code := code, order_type := "delivery" }
    (c, { s with carts := s.carts ++ [c], nextCartId := s.nextCartId + 1 })

/-- Model.save() on a Cart: overwrite the row with the same pk. -/
def saveCart (c : Cart) (s : Store) : Store :=
  { s with carts := s.carts.map (fun x => if x.id = c.id then c else x) }

/-- CartItem.objects.get_or_create(cart=get_cart, dish=get_dish)
(cart/views.py:68-71): rows matching both foreign keys; none matching
inserts a fresh row with the column default quantity=1; exactly one is
returned as-is; more than one raises MultipleObjectsReturned, which the
generic handler turns into a 400 (modelled as the none result). -/
def getOrCreateCartItem (cartId dishId : Nat) (s : Store) : Option (CartItem × Store) :=
  match s.cartItems.filter (fun it => it.cart = cartId ∧ it.dish = some dishId) with
  | [] =>
    let it : CartItem := { id := s.nextCartItemId, cart := cartId, dish := some dishId, quantity := 1 }
    some (it, { s with cartItems := s.cartItems ++ [it], nextCartItemId := s.nextCartItemId + 1 })
  | [it] => some (it, s)
  | _ => none

/-- Model.save() on a CartItem: overwrite the row with the same pk. -/
def saveCartItem (it : CartItem) (s : Store) : Store :=
  { s with cartItems := s.cartItems.map (fun x => if x.id = it.id then it else x) }

/-- CartItemExtra.objects.update_or_create(cart_item=..., extra=...,
defaults=\x7b"quantity": qty\x7d) (cart/views.py:92-96): no matching row
inserts a fresh one with the defaults applied; exactly one matching row has
its quantity overwritten; more than one raises MultipleObjectsReturned
(modelled as none, surfaced by the generic handler). -/
def updateOrCreateExtra (itemId extraId : Nat) (qty : Int) (s : Store) : Option Store :=
  match s.cartItemExtras.filter (fun r => r.cart_item = itemId ∧ r.extra = extraId) with
  | [] =>
    let r : CartItemExtra := { id := s.nextCartItemExtraId, cart_item := itemId, extra := extraId, quantity := qty }
    some { s with cartItemExtras := s.cartItemExtras ++ [r], nextCartItemExtraId := s.nextCartItemExtraId + 1 }
  | [r] =>
    some { s with cartItemExtras := s.cartItemExtras.map (fun x => if x.id = r.id then { r with quantity := qty } else x) }
  | _ => none

/-- The extras loop of add_dish (cart/views.py:88-96). For each key of the
extras dict, in order: ExtraItem.objects.get(id=key) first coerces the key
to a number (failure raises ValueError, caught by the generic handler) and
raises ExtraItem.DoesNotExist when no row has that id (caught by the 404
handler at cart/views.py:108-112 - there is NO try/except inside the loop,
so the remaining entries are not processed); then qty =
int(data.get("quantity", 1)); then the update_or_create upsert. Falling off
the loop reaches the serialization and response step at
cart/views.py:98-102 (serializeAndRespond), which for this model answers
the generic 400. -/
def processExtras (itemId : Nat) : List (String × ExtraEntry) → Store → CartResponse × Store
  | [], s => (serializeAndRespond itemId, s)
  | (key, data) :: rest, s =>
    match pyToNat? key with
    | none => (CartResponse.unexpected, s)
    | some eid =>
      match s.extra_items.find? (fun x => x.id = eid) with
      | none => (CartResponse.extraNotFound, s)
      | some _ =>
        match data.quantity.getD (PyInt.valid 1) with
        | PyInt.invalid => (CartResponse.unexpected, s)
        | PyInt.valid qty =>
          match updateOrCreateExtra itemId eid qty s with
          | none => (CartResponse.unexpected, s)
          | some s' => processExtras itemId rest s'

/-- The routed view add_dish of POST /cart/add_item/ (cart/views.py:26-122,
wired in cart/urls.py). Faithful control flow, in source order:
quantity = int(request.data.get("quantity", 1)) at line 53 (int() raising
lands in the generic 400 handler); orderoption =
request.data.get("orderoption").lower() at line 54 - when the key is absent
this is None.lower(), an AttributeError, caught by the generic handler
BEFORE any store access; Cart.objects.get_or_create(cart_code=...) (a None
cart_code would violate the non-null unique cart_code column, surfacing in
the generic handler); the order_type update when orderoption is one of the
ORDER_TYPES codes; Dish.objects.get(id=dish_id), DoesNotExist landing in
the 404 handler; the CartItem get_or_create and save with the requested
quantity (line 74 reads "if cart_item:", which is always true for a model
instance, so the quantity is always assigned); lines 76-77 assign
cart_item.special_instruction = note, but CartItem declares no such column
(cart/models.py:47-69), so Model.save() persists nothing for it and the
assignment only decorates the in-memory Python object; finally the extras
loop. Error branches return the store as mutated so far, because every
handler sits inside the transaction.atomic-decorated function (see the
file header). The response-serialization step at lines 98-102 is modelled
by serializeAndRespond: CartItemSerializer cannot build its fields for
this model, so .data raises ImproperlyConfigured into the generic handler
and the view never answers 201. The view is split here into the
cart-resolution phase
(add_dish below) and the rest of the body from the dish lookup onwards
(add_dish_core, covering cart/views.py:65-102): add_dish_core receives the
already-parsed quantity, the resolved cart and the store as committed by
the cart phase. -/
def add_dish_core (req : AddDishRequest) (quantity : Int) (cart : Cart) (s2 : Store) :
    CartResponse × Store :=
  match (match req.dish_id with
         | none => (none : Option Dish)
         | some d => s2.dishes.find? (fun x => x.id = d)) with
  | none => (CartResponse.dishNotFound, s2)
  | some dish =>
    match getOrCreateCartItem cart.id dish.id s2 with
    | none => (CartResponse.unexpected, s2)
    | some (item0, s3) =>
      match req.extra_items with
      | none =>
        (serializeAndRespond item0.id, saveCartItem { item0 with quantity := quantity } s3)
      | some ExtrasPayload.nonDict =>
        (CartResponse.extrasNotDict, saveCartItem { item0 with quantity := quantity } s3)
      | some (ExtrasPayload.dict entries) =>
        processExtras item0.id entries (saveCartItem { item0 with quantity := quantity } s3)

/-- The entry point of the routed view (see add_dish_core above for the
full account): parses quantity, reads orderoption (None.lower() raising
AttributeError into the generic handler when absent), resolves or creates
the cart and persists a recognized order_type, then hands over to
add_dish_core. -/
def add_dish (req : AddDishRequest) (s : Store) : CartResponse × Store :=
  match req.quantity.getD (PyInt.valid 1) with
  | PyInt.invalid => (CartResponse.unexpected, s)
  | PyInt.valid quantity =>
    match req.orderoption with
    | none => (CartResponse.unexpected, s)
    | some oo =>
      match req.cart_code with
      | none => (CartResponse.unexpected, s)
      | some code =>
        match List.contains ["pickup", "delivery"] (pyLower oo) with
        | true =>
          add_dish_core req quantity
            { (getOrCreateCart code s).1 with order_type := pyLower oo }
            (saveCart { (getOrCreateCart code s).1 with order_type := pyLower oo }
              (getOrCreateCart code s).2)
        | false =>
          add_dish_core req quantity (getOrCreateCart code s).1 (getOrCreateCart code s).2

/-- Responses of GET /cart/get_cart_stat/ (cart/views.py:153-190): 200 with
the SimpleCartSerializer payload (id, cart_code, number_of_items), the 400
"Cart code not provided" branch, and the 404 Cart.DoesNotExist handler. -/
inductive StatResponse where
  | ok (id : Nat) (cart_code : String) (number_of_items : Int)
  | noCartCode
  | cartNotFound
  deriving DecidableEq

/-- SimpleCartSerializer.get_number_of_items (cart/serializers.py:342-343):
sum of the quantities of the cart's items. -/
def number_of_items (s : Store) (cartId : Nat) : Int :=
  ((s.cartItems.filter (fun it => it.cart = cartId)).map (fun it => it.quantity)).sum

/-- The view get_cart_stat (cart/views.py:153-190). The query parameter is
none when absent; "if not cart_code" also treats the empty string as
missing. The view performs no write: the store is returned unchanged on
every path. -/
def get_cart_stat (cartCode : Option String) (s : Store) : StatResponse × Store :=
  match cartCode with
  | none => (StatResponse.noCartCode, s)
  | some code =>
    if code = "" then (StatResponse.noCartCode, s)
    else
      match s.carts.find? (fun c => c.cart_code = code) with
      | none => (StatResponse.cartNotFound, s)
      | some cart => (StatResponse.ok cart.id cart.cart_code (number_of_items s cart.id), s)

/-- Modelled from the spec: the HMAC behind Django's TimestampSigner
(django.core.signing is library code, not part of src/). The spec describes
it as "sign(payload, secret, timestamp)" with "standard HMAC-backed
timestamp signing"; the tag is stood in for by a concrete keyed hash of the
secret, the payload and the timestamp. No property of it beyond being a
deterministic function of those three inputs is used in any proof. -/
def strHash (s : String) : Nat :=
  s.data.foldl (fun a c => a * 131 + c.toNat + 1) 7

/-- Modelled from the spec: the authentication tag of a signed token. -/
def hmacTag (secret payload : String) (ts : Nat) : Nat :=
  strHash (secret ++ "|" ++ payload ++ "|" ++ toString ts)

/-- Modelled from the spec: a token produced by the timestamp signer, in
already-parsed form: the signed payload (here an email address), the signing
timestamp, and the tag. A token string that fails to parse at all behaves
like one whose tag does not check out (BadSignature), so tampering of any
kind is covered by mac not matching hmacTag. -/
structure SignedToken where
  payload : String
  ts : Nat
  mac : Nat
  deriving DecidableEq

/-- Modelled from the spec: TimestampSigner.sign(data) at the current time
(token_manager.py:26-34 delegates generate_token to it). -/
def signToken (secret data : String) (now : Nat) : SignedToken :=
  { payload := data, ts := now, mac := hmacTag secret data now }

/-- Modelled from the spec: TimestampSigner.unsign(token, max_age): the
signature is checked first (BadSignature when the tag does not match), then
expiry is strictly enforced - a token strictly older than max_age seconds
raises SignatureExpired; one aged exactly max_age is still accepted. -/
def unsign (secret : String) (tok : SignedToken) (maxAge now : Nat) : Option String :=
  if tok.mac ≠ hmacTag secret tok.payload tok.ts then none
  else if now > tok.ts + maxAge then none
  else some tok.payload

/-- verify_token (userauth/utils/token_manager.py:36-51): unsign under a
try/except that maps both SignatureExpired and BadSignature to None - the
two failure modes are indistinguishable to callers. -/
def verify_token (secret : String) (tok : SignedToken) (maxAge now : Nat) : Option String :=
  unsign secret tok maxAge now

/-- verify_email_token (userauth/utils/email_token.py:17-26): verify_token
with the default max_age of 300 seconds. -/
def verify_email_token (secret : String) (tok : SignedToken) (now : Nat) : Option String :=
  verify_token secret tok 300 now

/-- Account (account/models.py:96-142). The model declares public_id,
email (unique), first_name, last_name, phone_number, address, city, state,
role, date_of_birth, is_active, is_staff, is_superuser, date_joined and
last_login - and NO is_verified column, although verify.py, login.py,
reset_password.py, regenerate_token.py and the register serializer all
reference account.is_verified. Only the fields the verification view reads
are carried here. -/
structure Account where
  id : Nat
  email : String
  deriving DecidableEq

/-- The account table. -/
structure AuthStore where
  accounts : List Account
  deriving DecidableEq

/-- Responses of GET /auth/verify/?token=... (userauth/views/verify.py:
31-87): 400 "Missing token", 400 "Invalid or expired token", 400 "User not
found", and the unhandled server fault. The 200 branches of the source
(lines 72-82) are unreachable: they first evaluate user.is_verified, and
Account declares no such attribute, so an AttributeError escapes the view
(no handler catches it) and the framework converts it into a 500. -/
inductive VerifyResponse where
  | missingToken
  | invalidOrExpired
  | userNotFound
  | attributeErrorServerFault
  deriving DecidableEq

/-- The view verify_email_view (userauth/views/verify.py:31-87). The token
query parameter is none when absent ("if not token" also covers the empty
string, which parses to an invalid token anyway). On a valid token the view
runs Account.objects.get(email=email); when the account exists, line 72
evaluates user.is_verified, which raises AttributeError because the Account
model declares no is_verified field - the exception escapes (only
Account.DoesNotExist is handled) and no write to the store ever happens on
any path. -/
def verify_email_view (secret : String) (now : Nat) (tok : Option SignedToken)
    (s : AuthStore) : VerifyResponse × AuthStore :=
  match tok with
  | none => (VerifyResponse.missingToken, s)
  | some t =>
    match verify_email_token secret t now with
    | none => (VerifyResponse.invalidOrExpired, s)
    | some email =>
      match s.accounts.find? (fun a => a.email = email) with
      | some _ => (VerifyResponse.attributeErrorServerFault, s)
      | none => (VerifyResponse.userNotFound, s)

/-! Concrete fixtures used by the closed theorems and witnesses below.
These mirror the test fixtures of cart/tests/test_serializers.py: a dish
"Rice" priced 100 and an extra "Extra Cheese" priced 1.50. -/

/-- The dish of the concrete stores: Rice, priced 100.00. -/
def rice : Dish := { id := 1, name := "Rice", price := 100 }

/-- The extra of the concrete stores: Extra Cheese, priced 1.50. -/
def cheese : ExtraItem := { id := 5, name := "Extra Cheese", price := 3 / 2 }

/-- An otherwise empty store holding the dish Rice and a given extras
table. -/
def cartStore (db : List ExtraItem) : Store :=
  { carts := [], dishes := [rice], extra_items := db, cartItems := [],
    cartItemExtras := [], nextCartId := 1, nextCartItemId := 1, nextCartItemExtraId := 1 }

/-- A well-formed cart code for concrete requests (the UUID format itself
is not modelled, see Cart). -/
def cc : String := "123e4567-e89b-12d3-a456-426614174000"

/-- A minimal well-formed request body for the concrete runs: cart_code and
an existing dish, orderoption "pickup", everything else absent. -/
def baseReq : AddDishRequest :=
  { cart_code := some cc, dish_id := some 1, extra_items := none,
    note := none, quantity := none, orderoption := some "pickup" }

/-- The store committed by a completed minimal add of Rice with quantity
q: one cart (order_type updated to "pickup"), one cart item holding ONLY
(cart, dish, quantity) - the model has no price or instruction columns -
and a given extras table and extras rows. Completed means the write path
ran to its end; the response is still the generic 400 of the serializer
failure (serializeAndRespond). -/
def afterStore (db : List ExtraItem) (q : Int) (rows : List CartItemExtra)
    (nextExtra : Nat) : Store :=
  { carts := [{ id := 1, cart_code := cc, order_type := "pickup" }],
    dishes := [rice], extra_items := db,
    cartItems := [{ id := 1, cart := 1, dish := some 1, quantity := q }],
    cartItemExtras := rows, nextCartId := 2, nextCartItemId := 2,
    nextCartItemExtraId := nextExtra }

/-- baseReq with an explicit quantity field. -/
def reqQty (q : Option PyInt) : AddDishRequest :=
  { baseReq with quantity := q }

/-- baseReq with a note (special instruction). -/
def reqNote (n : String) : AddDishRequest :=
  { baseReq with note := some n }

/-- baseReq with an extra_items dict payload. -/
def reqExtras (entries : List (String × ExtraEntry)) : AddDishRequest :=
  { baseReq with extra_items := some (ExtrasPayload.dict entries) }

/-- The spec example request: quantity 2 plus extra "5" at quantity 2
(dish price 100, extra price 1.50 would give total 203.00). -/
def reqPrices : AddDishRequest :=
  { reqExtras [("5", { quantity := some (PyInt.valid 2) })] with
    quantity := some (PyInt.valid 2) }

/-- An extras payload naming the unresolvable extra "99" first and the
resolvable extra "5" second. -/
def reqBadFirst : AddDishRequest :=
  reqExtras [("99", { quantity := none }), ("5", { quantity := some (PyInt.valid 2) })]

/-- An extras payload naming only the unresolvable extra "99". -/
def req99 : AddDishRequest :=
  reqExtras [("99", { quantity := none })]

/-- The minimal well-formed request of the claim about optional fields:
only cart_code and dish_id are supplied. -/
def reqMinimal : AddDishRequest :=
  { cart_code := some cc, dish_id := some 1, extra_items := none,
    note := none, quantity := none, orderoption := none }

/-- The pair of foreign keys identifying what a CartItem row is about; the
table-level invariant of interest is that no two rows share it. -/
def itemKey (it : CartItem) : Nat × Option Nat := (it.cart, it.dish)

/-- The pair of foreign keys identifying what a CartItemExtra row is about. -/
def extraKey (r : CartItemExtra) : Nat × Nat := (r.cart_item, r.extra)

/-- Well-formedness of the CartItem table: primary keys are distinct and
below the auto-increment counter, and no two rows share the (cart, dish)
pair - the uniqueness invariant get_or_create relies on. -/
def ItemsWF (s : Store) : Prop :=
  (s.cartItems.map CartItem.id).Nodup ∧
  (∀ it ∈ s.cartItems, it.id < s.nextCartItemId) ∧
  (s.cartItems.map itemKey).Nodup

/-- Well-formedness of the CartItemExtra table: primary keys are distinct
and below the counter, and no two rows share the (cart_item, extra) pair -
the uniqueness invariant update_or_create relies on. -/
def ExtrasWF (s : Store) : Prop :=
  (s.cartItemExtras.map CartItemExtra.id).Nodup ∧
  (∀ r ∈ s.cartItemExtras, r.id < s.nextCartItemExtraId) ∧
  (s.cartItemExtras.map extraKey).Nodup

/-- Well-formedness of the whole store (the tables the cart flow writes). -/
def StoreWF (s : Store) : Prop := ItemsWF s ∧ ExtrasWF s

/-- A sequence of POST /cart/add_item/ requests, each applied to the store
the previous one committed. -/
def runRequests (reqs : List AddDishRequest) (s : Store) : Store :=
  reqs.foldl (fun st r => (add_dish r st).2) s

/-- A store with the dish and the extra at chosen prices, used to exhibit
that the persisted rows do not depend on any price. -/
def pricedStore (dishPrice extraPrice : ℚ) : Store :=
  { carts := [], dishes := [{ id := 1, name := "Rice", price := dishPrice }],
    extra_items := [{ id := 5, name := "Extra Cheese", price := extraPrice }],
    cartItems := [], cartItemExtras := [], nextCartId := 1, nextCartItemId := 1,
    nextCartItemExtraId := 1 }

/-- A store for the cart-stat theorems: one cart and two of its items with
quantities 2 and 3 (one item with a nulled dish, as SET_NULL allows). -/
def statStore : Store :=
  { carts := [{ id := 7, cart_code := "abc", order_type := "delivery" }],
    dishes := [], extra_items := [],
    cartItems := [{ id := 1, cart := 7, dish := some 1, quantity := 2 },
                  { id := 2, cart := 7, dish := none, quantity := 3 }],
    cartItemExtras := [], nextCartId := 8, nextCartItemId := 3,
    nextCartItemExtraId := 1 }

/-- An account table holding one account. -/
def authStoreFix : AuthStore :=
  { accounts := [{ id := 1, email := "user@example.com" }] }

/-- A token signed at time 10 for the one account of authStoreFix. -/
def goodToken : SignedToken := signToken "k1" "user@example.com" 10

/-- goodToken with its tag corrupted: a tampered token. -/
def badToken : SignedToken := { goodToken with mac := goodToken.mac + 1 }

/-! Theorems. Each claim of the specification gets one theorem below, with
auxiliary lemmas shared between them. -/

/-- C1: the claim asserts that the persisted cart item carries unit_price =
dish price and total_price = unit price × quantity + Σ extra price ×
quantity. The CartItem model (cart/models.py:47-69) declares no unit_price
or total_price column and the routed add_dish computes no price, so the
persisted rows are identical whatever the prices are: running the spec
example (quantity 2, extra quantity 2) against a store with prices
(100, 1.50) and against one with prices (999, 99) commits exactly the same
CartItem and CartItemExtra rows, and no field worth 100, 203 or anything
price-derived exists on them. The pricing formula exists only in
CartItemWriteSerializer.validate (cart/serializers.py:127-151), which no
routed view uses, and whose create would crash passing unit_price to
CartItem.objects.create. The response to the completed request is the
generic 400, not 201: CartItemSerializer.data raises ImproperlyConfigured
over the same missing columns (serializeAndRespond), so the success
response of the claim is never produced either. -/
theorem persisted_cart_item_carries_no_price :
    (add_dish reqPrices (pricedStore 100 (3 / 2))).2.cartItems
      = (add_dish reqPrices (pricedStore 999 99)).2.cartItems ∧
    (add_dish reqPrices (pricedStore 100 (3 / 2))).2.cartItemExtras
      = (add_dish reqPrices (pricedStore 999 99)).2.cartItemExtras ∧
    (add_dish reqPrices (pricedStore 100 (3 / 2))).1 = CartResponse.unexpected ∧
    (add_dish reqPrices (pricedStore 999 99)).1 = CartResponse.unexpected := by
  refine ⟨rfl, rfl, rfl, rfl⟩

/-- C2 counterexample: the claim says an extras entry whose id resolves to
no ExtraItem is skipped silently, the remaining entries are still processed
and the operation succeeds. Running add_dish with the unresolvable entry
"99" first and the resolvable entry "5" second: the request fails with the
404 "Extra item not found" response and the entry "5" is never processed
(no CartItemExtra row is committed at all). -/
theorem unresolved_extra_is_not_skipped :
    (add_dish reqBadFirst (cartStore [cheese])).1 = CartResponse.extraNotFound ∧
    (add_dish reqBadFirst (cartStore [cheese])).2.cartItemExtras = [] := by
  refine ⟨rfl, rfl⟩

/-- C3: the claim (and the comment at cart/views.py:27) says no partial
state is committed when a step after cart resolution fails. The exception
handlers sit inside the transaction.atomic-decorated function, so a caught
ExtraItem.DoesNotExist makes the view return 404 normally and the
transaction COMMITS everything done so far: on a store whose extras table
is empty, a request with extras \x7b"99": \x7b\x7d\x7d gets the 404
"Extra item not found" response while the new cart item (an orphan, without
its extras) and the new cart are durably committed. -/
theorem caught_error_commits_orphan_cart_item :
    (add_dish req99 (cartStore [])).1 = CartResponse.extraNotFound ∧
    (add_dish req99 (cartStore [])).2.cartItems
      = [{ id := 1, cart := 1, dish := some 1, quantity := 1 }] ∧
    (add_dish req99 (cartStore [])).2.cartItemExtras = [] := by
  refine ⟨rfl, rfl, rfl⟩

/-- C4 counterexample: the claim says re-posting updates the existing cart
item quantity, instruction and prices. The note (special instruction) is
not persisted at all: two requests identical except for their note commit
bit-for-bit identical stores and responses, because
cart_item.special_instruction = note (cart/views.py:76-77) assigns an
attribute that is not a column of CartItem, and Model.save() ignores it. -/
theorem note_is_not_persisted :
    add_dish (reqNote "no onions") (cartStore [])
      = add_dish (reqNote "extra spicy") (cartStore []) := by
  rfl

/-- C6: the claim says quantity, note, orderoption and extra_items are all
optional and a request with only cart_code and an existing dish id gets
201, the generic error branch being unreachable. In the code, line 54 of
cart/views.py runs request.data.get("orderoption").lower(); with
orderoption absent this is None.lower(), an AttributeError, caught by the
generic except Exception handler: the minimal well-formed request is
answered by the 400 "An unexpected error occurred" branch (before any store
access - the store is unchanged). -/
theorem minimal_request_hits_generic_error :
    add_dish reqMinimal (cartStore []) = (CartResponse.unexpected, cartStore []) := by
  rfl

/-- C7 counterexample: the claim says every request whose quantity is not a
positive integer is rejected and no cart item is persisted with a zero or
negative quantity. add_dish performs no positivity check and quantity is a
plain IntegerField: a request with quantity -3 runs the whole write path
and the cart item is COMMITTED with quantity -3, refuting the parenthesis
directly. The 400 answer it gets is no quantity rejection: it is the
response every completed add_item request gets, raised afterwards by the
unrelated CartItemSerializer ImproperlyConfigured failure, and the commit
survives it (handlers inside transaction.atomic). -/
theorem negative_quantity_is_persisted :
    ((add_dish (reqQty (some (PyInt.valid (-3)))) (cartStore [])).2.cartItems.map
        CartItem.quantity) = [-3] ∧
    (add_dish (reqQty (some (PyInt.valid (-3)))) (cartStore [])).1
      = CartResponse.unexpected := by
  refine ⟨rfl, rfl⟩

/-- C7 (amended): quantity defaults to 1 when unspecified, and a quantity
on which int() raises lands in the generic 400 handler with the store
untouched; but no positivity check exists: for any integer quantity, zero
or negative included, the whole write path runs and the cart item is
committed with exactly that quantity. The response in the committed cases
is also the generic 400 - not a rejection of the quantity but the
CartItemSerializer ImproperlyConfigured failure that follows every
completed add_item request - so the two outcomes are told apart by the
store: committed row versus untouched store. -/
theorem quantity_default_parse_and_no_positivity_check :
    (∀ q : Int, add_dish (reqQty (some (PyInt.valid q))) (cartStore [])
        = (CartResponse.unexpected, afterStore [] q [] 1)) ∧
    add_dish baseReq (cartStore []) = (CartResponse.unexpected, afterStore [] 1 [] 1) ∧
    add_dish (reqQty (some PyInt.invalid)) (cartStore [])
      = (CartResponse.unexpected, cartStore []) := by
  refine ⟨fun q => rfl, rfl, rfl⟩

/-- C10: the claim says an already-verified account gets HTTP 200 ("already
verified") from a second valid verification. The Account model
(account/models.py:96-142) declares no is_verified field, so line 72 of
userauth/views/verify.py (user.is_verified) raises AttributeError for EVERY
valid token naming an existing account; no handler catches it, the request
ends in a server fault and the 200 branches are unreachable - here
evaluated on a fresh valid token (age 90 of 300 seconds) for the one
existing account. -/
theorem valid_token_verification_raises_attribute_error :
    verify_email_view "k1" 100 (some (signToken "k1" "user@example.com" 10)) authStoreFix
      = (VerifyResponse.attributeErrorServerFault, authStoreFix) := by
  rfl

/-- A list whose key projections are pairwise distinct has at most one
element matching a keyed filter: the filter result is empty or a
singleton. -/
theorem filter_keyed_cases {α β : Type} [DecidableEq β] (key : α → β) (b : β)
    (p : α → Bool) (hp : ∀ x, p x = true ↔ key x = b) (l : List α)
    (hn : (l.map key).Nodup) :
    l.filter p = [] ∨ ∃ r, l.filter p = [r] ∧ key r = b ∧ r ∈ l := by
  rcases h : l.filter p with _ | ⟨r, rest⟩
  · exact Or.inl rfl
  · rcases rest with _ | ⟨r2, rest2⟩
    · have hr : r ∈ l.filter p := by rw [h]; exact List.mem_cons_self r []
      rcases List.mem_filter.mp hr with ⟨hmem, hpr⟩
      exact Or.inr ⟨r, rfl, (hp r).mp hpr, hmem⟩
    · exfalso
      have hsub : List.Sublist (r :: r2 :: rest2) l := by
        rw [← h]; exact List.filter_sublist l
      have hnod : ((r :: r2 :: rest2).map key).Nodup := hn.sublist (hsub.map key)
      have hr : r ∈ l.filter p := by rw [h]; exact List.mem_cons_self r _
      have hr2 : r2 ∈ l.filter p := by
        rw [h]; exact List.mem_cons_of_mem r (List.mem_cons_self r2 _)
      have hkr : key r = b := (hp r).mp (List.mem_filter.mp hr).2
      have hkr2 : key r2 = b := (hp r2).mp (List.mem_filter.mp hr2).2
      have hni : key r ∉ (r2 :: rest2).map key := (List.nodup_cons.mp hnod).1
      apply hni
      rw [hkr, ← hkr2]
      exact List.mem_map_of_mem key (List.mem_cons_self r2 _)

/-- ItemsWF only looks at the CartItem table and its counter. -/
theorem itemsWF_of_eq (s s' : Store) (h1 : s'.cartItems = s.cartItems)
    (h2 : s'.nextCartItemId = s.nextCartItemId) (h : ItemsWF s) : ItemsWF s' := by
  unfold ItemsWF at h ⊢
  rw [h1, h2]
  exact h

/-- ExtrasWF only looks at the CartItemExtra table and its counter. -/
theorem extrasWF_of_eq (s s' : Store) (h1 : s'.cartItemExtras = s.cartItemExtras)
    (h2 : s'.nextCartItemExtraId = s.nextCartItemExtraId) (h : ExtrasWF s) : ExtrasWF s' := by
  unfold ExtrasWF at h ⊢
  rw [h1, h2]
  exact h

/-- StoreWF transfers along equality of the four fields it depends on. -/
theorem storeWF_of_eq (s s' : Store) (h1 : s'.cartItems = s.cartItems)
    (h2 : s'.nextCartItemId = s.nextCartItemId) (h3 : s'.cartItemExtras = s.cartItemExtras)
    (h4 : s'.nextCartItemExtraId = s.nextCartItemExtraId) (h : StoreWF s) : StoreWF s' :=
  ⟨itemsWF_of_eq s s' h1 h2 h.1, extrasWF_of_eq s s' h3 h4 h.2⟩

/-- Cart resolution only touches the Cart table and its counter. -/
theorem gocCart_fields (code : String) (s : Store) :
    ((getOrCreateCart code s).2).cartItems = s.cartItems ∧
    ((getOrCreateCart code s).2).nextCartItemId = s.nextCartItemId ∧
    ((getOrCreateCart code s).2).cartItemExtras = s.cartItemExtras ∧
    ((getOrCreateCart code s).2).nextCartItemExtraId = s.nextCartItemExtraId := by
  unfold getOrCreateCart
  cases s.carts.find? (fun c => c.cart_code = code) <;> exact ⟨rfl, rfl, rfl, rfl⟩

/-- Saving a cart only touches the Cart table. -/
theorem saveCart_fields (c : Cart) (s : Store) :
    (saveCart c s).cartItems = s.cartItems ∧
    (saveCart c s).nextCartItemId = s.nextCartItemId ∧
    (saveCart c s).cartItemExtras = s.cartItemExtras ∧
    (saveCart c s).nextCartItemExtraId = s.nextCartItemExtraId :=
  ⟨rfl, rfl, rfl, rfl⟩

/-- get_or_create on the CartItem table under a well-formed store: it never
raises MultipleObjectsReturned, preserves well-formedness, and the row it
returns is in the table, is the only row with its pk, carries the requested
(cart, dish) pair, and the CartItemExtra table is untouched. -/
theorem gocItem_spec (c d : Nat) (s : Store) (hWF : ItemsWF s) :
    ∃ it s', getOrCreateCartItem c d s = some (it, s') ∧ ItemsWF s' ∧
      it ∈ s'.cartItems ∧ (∀ x ∈ s'.cartItems, x.id = it.id → x = it) ∧
      itemKey it = (c, some d) ∧
      s'.cartItemExtras = s.cartItemExtras ∧ s'.nextCartItemExtraId = s.nextCartItemExtraId := by
  obtain ⟨h1, h2, h3⟩ := hWF
  have hp : ∀ x : CartItem,
      (decide (x.cart = c ∧ x.dish = some d)) = true ↔ itemKey x = (c, some d) := by
    intro x
    simp [itemKey, Prod.ext_iff]
  rcases filter_keyed_cases itemKey (c, some d) _ hp s.cartItems h3 with hf | ⟨r, hf, hkey, hmem⟩
  · refine ⟨(⟨s.nextCartItemId, c, some d, 1⟩ : CartItem),
      { s with cartItems := s.cartItems ++ [(⟨s.nextCartItemId, c, some d, 1⟩ : CartItem)], nextCartItemId := s.nextCartItemId + 1 },
      ?_, ⟨?_, ?_, ?_⟩, ?_, ?_, rfl, rfl, rfl⟩
    · unfold getOrCreateCartItem
      simp only [hf]
    · show ((s.cartItems ++ [(⟨s.nextCartItemId, c, some d, 1⟩ : CartItem)]).map CartItem.id).Nodup
      rw [List.map_append, List.nodup_append]
      refine ⟨h1, List.nodup_singleton _, ?_⟩
      intro a ha hb
      rcases List.mem_map.mp ha with ⟨x, hx, rfl⟩
      have hlt := h2 x hx
      have hxe : x.id = s.nextCartItemId := by simpa using hb
      omega
    · intro it hit
      have hit' : it ∈ s.cartItems ++ [(⟨s.nextCartItemId, c, some d, 1⟩ : CartItem)] := hit
      show it.id < s.nextCartItemId + 1
      rcases List.mem_append.mp hit' with hl | hr
      · exact Nat.lt_succ_of_lt (h2 it hl)
      · have he : it = (⟨s.nextCartItemId, c, some d, 1⟩ : CartItem) := by simpa using hr
        rw [he]
        exact Nat.lt_succ_self _
    · show ((s.cartItems ++ [(⟨s.nextCartItemId, c, some d, 1⟩ : CartItem)]).map itemKey).Nodup
      rw [List.map_append, List.nodup_append]
      refine ⟨h3, List.nodup_singleton _, ?_⟩
      intro a ha hb
      rcases List.mem_map.mp ha with ⟨x, hx, rfl⟩
      have hnx : ¬((fun it => decide (it.cart = c ∧ it.dish = some d)) x = true) :=
        List.filter_eq_nil_iff.mp hf x hx
      have hxk : itemKey x ≠ (c, some d) := fun hk => hnx ((hp x).mpr hk)
      have hbe : itemKey x = (c, some d) := by simpa [itemKey] using hb
      exact hxk hbe
    · show (⟨s.nextCartItemId, c, some d, 1⟩ : CartItem) ∈
        s.cartItems ++ [(⟨s.nextCartItemId, c, some d, 1⟩ : CartItem)]
      exact List.mem_append_right _ (List.mem_cons_self _ _)
    · intro x hx hid
      have hx' : x ∈ s.cartItems ++ [(⟨s.nextCartItemId, c, some d, 1⟩ : CartItem)] := hx
      have hid' : x.id = s.nextCartItemId := hid
      rcases List.mem_append.mp hx' with hl | hr
      · have hlt := h2 x hl
        omega
      · simpa using hr
  · refine ⟨r, s, ?_, ⟨h1, h2, h3⟩, hmem, ?_, hkey, rfl, rfl⟩
    · unfold getOrCreateCartItem
      simp only [hf]
    · intro x hx hid
      exact List.inj_on_of_nodup_map h1 hx hmem hid

/-- Saving a cart item that replaces the unique row with its pk by a row
with the same pk and the same (cart, dish) pair preserves table
well-formedness and does not touch the CartItemExtra table. -/
theorem saveCartItem_wf (it it' : CartItem) (s : Store) (hWF : ItemsWF s)
    (hmem : it ∈ s.cartItems) (huniq : ∀ x ∈ s.cartItems, x.id = it.id → x = it)
    (hid : it'.id = it.id) (hkey : itemKey it' = itemKey it) :
    ItemsWF (saveCartItem it' s) ∧ (saveCartItem it' s).cartItemExtras = s.cartItemExtras ∧
      (saveCartItem it' s).nextCartItemExtraId = s.nextCartItemExtraId := by
  obtain ⟨h1, h2, h3⟩ := hWF
  have hpoint : ∀ x ∈ s.cartItems,
      (if x.id = it'.id then it' else x).id = x.id ∧
      itemKey (if x.id = it'.id then it' else x) = itemKey x := by
    intro x hx
    by_cases hxid : x.id = it'.id
    · have hxit : x = it := huniq x hx (by rw [hxid, hid])
      subst hxit
      rw [if_pos hxid]
      exact ⟨hid, hkey⟩
    · rw [if_neg hxid]
      exact ⟨rfl, rfl⟩
  have hids : (saveCartItem it' s).cartItems.map CartItem.id
      = s.cartItems.map CartItem.id := by
    show (s.cartItems.map (fun x => if x.id = it'.id then it' else x)).map CartItem.id
      = s.cartItems.map CartItem.id
    rw [List.map_map]
    exact List.map_congr_left (fun x hx => (hpoint x hx).1)
  have hkeys : (saveCartItem it' s).cartItems.map itemKey = s.cartItems.map itemKey := by
    show (s.cartItems.map (fun x => if x.id = it'.id then it' else x)).map itemKey
      = s.cartItems.map itemKey
    rw [List.map_map]
    exact List.map_congr_left (fun x hx => (hpoint x hx).2)
  refine ⟨⟨?_, ?_, ?_⟩, rfl, rfl⟩
  · rw [hids]
    exact h1
  · intro y hy
    have hy' : y ∈ s.cartItems.map (fun x => if x.id = it'.id then it' else x) := hy
    rcases List.mem_map.mp hy' with ⟨x, hx, rfl⟩
    show (if x.id = it'.id then it' else x).id < s.nextCartItemId
    rw [(hpoint x hx).1]
    exact h2 x hx
  · rw [hkeys]
    exact h3

/-- update_or_create on the CartItemExtra table under a well-formed store:
it never raises MultipleObjectsReturned, preserves well-formedness, and
touches neither the CartItem table nor the ExtraItem table. -/
theorem updExtra_spec (i e : Nat) (q : Int) (s : Store) (hWF : ExtrasWF s) :
    ∃ s', updateOrCreateExtra i e q s = some s' ∧ ExtrasWF s' ∧
      s'.cartItems = s.cartItems ∧ s'.nextCartItemId = s.nextCartItemId ∧
      s'.extra_items = s.extra_items := by
  obtain ⟨h1, h2, h3⟩ := hWF
  have hp : ∀ x : CartItemExtra,
      (decide (x.cart_item = i ∧ x.extra = e)) = true ↔ extraKey x = (i, e) := by
    intro x
    simp [extraKey, Prod.ext_iff]
  rcases filter_keyed_cases extraKey (i, e) _ hp s.cartItemExtras h3 with hf | ⟨r, hf, hkey, hmem⟩
  · refine ⟨{ s with cartItemExtras := s.cartItemExtras ++ [(⟨s.nextCartItemExtraId, i, e, q⟩ : CartItemExtra)], nextCartItemExtraId := s.nextCartItemExtraId + 1 },
      ?_, ⟨?_, ?_, ?_⟩, rfl, rfl, rfl⟩
    · unfold updateOrCreateExtra
      simp only [hf]
    · show ((s.cartItemExtras ++ [(⟨s.nextCartItemExtraId, i, e, q⟩ : CartItemExtra)]).map CartItemExtra.id).Nodup
      rw [List.map_append, List.nodup_append]
      refine ⟨h1, List.nodup_singleton _, ?_⟩
      intro a ha hb
      rcases List.mem_map.mp ha with ⟨x, hx, rfl⟩
      have hlt := h2 x hx
      have hxe : x.id = s.nextCartItemExtraId := by simpa using hb
      omega
    · intro rr hrr
      have hrr' : rr ∈ s.cartItemExtras ++ [(⟨s.nextCartItemExtraId, i, e, q⟩ : CartItemExtra)] := hrr
      show rr.id < s.nextCartItemExtraId + 1
      rcases List.mem_append.mp hrr' with hl | hr
      · exact Nat.lt_succ_of_lt (h2 rr hl)
      · have he : rr = (⟨s.nextCartItemExtraId, i, e, q⟩ : CartItemExtra) := by simpa using hr
        rw [he]
        exact Nat.lt_succ_self _
    · show ((s.cartItemExtras ++ [(⟨s.nextCartItemExtraId, i, e, q⟩ : CartItemExtra)]).map extraKey).Nodup
      rw [List.map_append, List.nodup_append]
      refine ⟨h3, List.nodup_singleton _, ?_⟩
      intro a ha hb
      rcases List.mem_map.mp ha with ⟨x, hx, rfl⟩
      have hnx : ¬((fun rr => decide (rr.cart_item = i ∧ rr.extra = e)) x = true) :=
        List.filter_eq_nil_iff.mp hf x hx
      have hxk : extraKey x ≠ (i, e) := fun hk => hnx ((hp x).mpr hk)
      have hbe : extraKey x = (i, e) := by simpa [extraKey] using hb
      exact hxk hbe
  · have huniq : ∀ x ∈ s.cartItemExtras, x.id = r.id → x = r := by
      intro x hx hxid
      exact List.inj_on_of_nodup_map h1 hx hmem hxid
    have hpoint : ∀ x ∈ s.cartItemExtras,
        (if x.id = r.id then { r with quantity := q } else x).id = x.id ∧
        extraKey (if x.id = r.id then { r with quantity := q } else x) = extraKey x := by
      intro x hx
      by_cases hxid : x.id = r.id
      · have hxr : x = r := huniq x hx hxid
        subst hxr
        rw [if_pos hxid]
        exact ⟨rfl, rfl⟩
      · rw [if_neg hxid]
        exact ⟨rfl, rfl⟩
    have hids : (s.cartItemExtras.map (fun x => if x.id = r.id then { r with quantity := q } else x)).map CartItemExtra.id
        = s.cartItemExtras.map CartItemExtra.id := by
      rw [List.map_map]
      exact List.map_congr_left (fun x hx => (hpoint x hx).1)
    have hkeys : (s.cartItemExtras.map (fun x => if x.id = r.id then { r with quantity := q } else x)).map extraKey
        = s.cartItemExtras.map extraKey := by
      rw [List.map_map]
      exact List.map_congr_left (fun x hx => (hpoint x hx).2)
    refine ⟨{ s with cartItemExtras := s.cartItemExtras.map (fun x => if x.id = r.id then { r with quantity := q } else x) },
      ?_, ⟨?_, ?_, ?_⟩, rfl, rfl, rfl⟩
    · unfold updateOrCreateExtra
      simp only [hf]
    · show ((s.cartItemExtras.map (fun x => if x.id = r.id then { r with quantity := q } else x)).map CartItemExtra.id).Nodup
      rw [hids]
      exact h1
    · intro y hy
      have hy' : y ∈ s.cartItemExtras.map (fun x => if x.id = r.id then { r with quantity := q } else x) := hy
      rcases List.mem_map.mp hy' with ⟨x, hx, rfl⟩
      show (if x.id = r.id then { r with quantity := q } else x).id < s.nextCartItemExtraId
      rw [(hpoint x hx).1]
      exact h2 x hx
    · show ((s.cartItemExtras.map (fun x => if x.id = r.id then { r with quantity := q } else x)).map extraKey).Nodup
      rw [hkeys]
      exact h3

/-- The extras loop preserves store well-formedness and never touches the
CartItem, Dish or ExtraItem tables. -/
theorem processExtras_wf (itemId : Nat) :
    ∀ (entries : List (String × ExtraEntry)) (s : Store), StoreWF s →
      StoreWF (processExtras itemId entries s).2 := by
  intro entries
  induction entries with
  | nil => exact fun s h => h
  | cons head rest ih =>
    intro s h
    obtain ⟨key, data⟩ := head
    cases hk : pyToNat? key with
    | none =>
      simp only [processExtras, hk]
      exact h
    | some eid =>
      cases hfind : s.extra_items.find? (fun x => x.id = eid) with
      | none =>
        simp only [processExtras, hk, hfind]
        exact h
      | some xi =>
        cases hq : data.quantity.getD (PyInt.valid 1) with
        | invalid =>
          simp only [processExtras, hk, hfind, hq]
          exact h
        | valid q =>
          rcases updExtra_spec itemId eid q s h.2 with ⟨s', heq, hE', hci, hni, hxi⟩
          simp only [processExtras, hk, hfind, hq, heq]
          exact ih s' ⟨itemsWF_of_eq s s' hci hni h.1, hE'⟩

/-- The body of add_dish after cart resolution preserves store
well-formedness. -/
theorem add_dish_core_wf (req : AddDishRequest) (quantity : Int) (cart : Cart) (s2 : Store)
    (h : StoreWF s2) : StoreWF (add_dish_core req quantity cart s2).2 := by
  cases hdish : (match req.dish_id with
    | none => (none : Option Dish)
    | some d => s2.dishes.find? (fun x => x.id = d)) with
  | none =>
    simp only [add_dish_core, hdish]
    exact h
  | some dish =>
    rcases gocItem_spec cart.id dish.id s2 h.1 with ⟨it, s3, heq, hI3, hmem, huniq, hkey, he1, he2⟩
    have hE3 : ExtrasWF s3 := extrasWF_of_eq _ _ he1 he2 h.2
    obtain ⟨hI4, hx1, hx2⟩ := saveCartItem_wf it { it with quantity := quantity } s3
      hI3 hmem huniq rfl rfl
    have hE4 : ExtrasWF (saveCartItem { it with quantity := quantity } s3) :=
      extrasWF_of_eq _ _ hx1 hx2 hE3
    cases hx : req.extra_items with
    | none =>
      simp only [add_dish_core, hdish, heq, hx]
      exact ⟨hI4, hE4⟩
    | some pl =>
      cases pl with
      | nonDict =>
        simp only [add_dish_core, hdish, heq, hx]
        exact ⟨hI4, hE4⟩
      | dict entries =>
        simp only [add_dish_core, hdish, heq, hx]
        exact processExtras_wf _ entries _ ⟨hI4, hE4⟩

/-- One add_item request preserves store well-formedness: in particular it
can never produce a second CartItem row for a (cart, dish) pair, nor a
second CartItemExtra row for a (cart_item, extra) pair. -/
theorem add_dish_wf (r : AddDishRequest) (s : Store) (h : StoreWF s) :
    StoreWF (add_dish r s).2 := by
  cases hq : r.quantity.getD (PyInt.valid 1) with
  | invalid =>
    simp only [add_dish, hq]
    exact h
  | valid quantity =>
    cases ho : r.orderoption with
    | none =>
      simp only [add_dish, hq, ho]
      exact h
    | some oo =>
      cases hc : r.cart_code with
      | none =>
        simp only [add_dish, hq, ho, hc]
        exact h
      | some code =>
        obtain ⟨g1, g2, g3, g4⟩ := gocCart_fields code s
        have hs1 : StoreWF (getOrCreateCart code s).2 := storeWF_of_eq _ _ g1 g2 g3 g4 h
        cases hcont : List.contains ["pickup", "delivery"] (pyLower oo) with
        | true =>
          simp only [add_dish, hq, ho, hc, hcont]
          obtain ⟨v1, v2, v3, v4⟩ := saveCart_fields
            { (getOrCreateCart code s).1 with order_type := pyLower oo } (getOrCreateCart code s).2
          exact add_dish_core_wf r quantity _ _ (storeWF_of_eq _ _ v1 v2 v3 v4 hs1)
        | false =>
          simp only [add_dish, hq, ho, hc, hcont]
          exact add_dish_core_wf r quantity _ _ hs1

/-- Any sequence of add_item requests preserves store well-formedness. -/
theorem runRequests_wf (reqs : List AddDishRequest) :
    ∀ s : Store, StoreWF s → StoreWF (runRequests reqs s) := by
  induction reqs with
  | nil => exact fun s h => h
  | cons r rest ih => exact fun s h => ih (add_dish r s).2 (add_dish_wf r s h)

/-- C4 (amended): after any sequence of add_item requests on a well-formed
store, at most one CartItem row exists per (cart, dish) pair - the key
projections of the table stay pairwise distinct - and re-posting for the
same (cart_code, dish_id) updates the existing row quantity in place
(here: quantity 2 then 5 leaves the single row ⟨id 1, cart 1, dish 1,
quantity 5⟩). The special instruction and the prices of the original claim
are not persisted: CartItem has no such columns (see
note_is_not_persisted and persisted_cart_item_carries_no_price). -/
theorem cart_item_unique_per_pair_and_repost_updates :
    (∀ (reqs : List AddDishRequest) (s : Store), StoreWF s →
        ((runRequests reqs s).cartItems.map itemKey).Nodup) ∧
    (add_dish (reqQty (some (PyInt.valid 5)))
        ((add_dish (reqQty (some (PyInt.valid 2))) (cartStore [])).2)).2.cartItems
      = [⟨1, 1, some 1, 5⟩] := by
  constructor
  · intro reqs s hWF
    exact (runRequests_wf reqs s hWF).1.2.2
  · rfl

/-- Witness for C4 at a concrete input: the starting store is well-formed
and after re-posting baseReq twice the (cart, dish) keys are duplicate
free. -/
theorem cart_item_unique_per_pair_witness :
    StoreWF (cartStore [cheese]) ∧
    ((runRequests [baseReq, baseReq] (cartStore [cheese])).cartItems.map itemKey).Nodup :=
  ⟨by unfold StoreWF ItemsWF ExtrasWF; decide,
   cart_item_unique_per_pair_and_repost_updates.1 [baseReq, baseReq] (cartStore [cheese])
     (by unfold StoreWF ItemsWF ExtrasWF; decide)⟩

/-- C5: after any sequence of add_item requests on a well-formed store, at
most one CartItemExtra row exists per (cart_item, extra) pair, and adding
the same extra a second time updates the existing row quantity in place
rather than appending a second row (here: extra 5 at quantity 2 then
quantity 5 leaves the single row ⟨id 1, cart_item 1, extra 5, quantity 5⟩,
as update_or_create overwrites the quantity of the matched row). -/
theorem cart_item_extra_unique_per_pair_and_upsert :
    (∀ (reqs : List AddDishRequest) (s : Store), StoreWF s →
        ((runRequests reqs s).cartItemExtras.map extraKey).Nodup) ∧
    (add_dish (reqExtras [("5", { quantity := some (PyInt.valid 5) })])
        ((add_dish (reqExtras [("5", { quantity := some (PyInt.valid 2) })])
          (cartStore [cheese])).2)).2.cartItemExtras
      = [⟨1, 1, 5, 5⟩] := by
  constructor
  · intro reqs s hWF
    exact (runRequests_wf reqs s hWF).2.2.2
  · rfl

/-- Witness for C5 at a concrete input: the starting store is well-formed
and after one extras-bearing request the (cart_item, extra) keys are
duplicate free. -/
theorem cart_item_extra_unique_per_pair_witness :
    StoreWF (cartStore [cheese]) ∧
    ((runRequests [reqExtras [("5", { quantity := some (PyInt.valid 2) })]]
        (cartStore [cheese])).cartItemExtras.map extraKey).Nodup :=
  ⟨by unfold StoreWF ItemsWF ExtrasWF; decide,
   cart_item_extra_unique_per_pair_and_upsert.1
     [reqExtras [("5", { quantity := some (PyInt.valid 2) })]] (cartStore [cheese])
     (by unfold StoreWF ItemsWF ExtrasWF; decide)⟩

/-- The extras loop, run on entries whose keys all parse and whose
quantities are all valid, answers 404 "Extra item not found" as soon as
some entry does not resolve to a row of the ExtraItem table. -/
theorem processExtras_extraNotFound (itemId : Nat) :
    ∀ (entries : List (String × ExtraEntry)) (s : Store), ExtrasWF s →
      (∀ e ∈ entries, (pyToNat? e.1).isSome = true ∧
        e.2.quantity.getD (PyInt.valid 1) ≠ PyInt.invalid) →
      (∃ e ∈ entries,
        (pyToNat? e.1).bind (fun n => s.extra_items.find? (fun x => x.id = n)) = none) →
      (processExtras itemId entries s).1 = CartResponse.extraNotFound := by
  intro entries
  induction entries with
  | nil =>
    intro s _ _ hmiss
    rcases hmiss with ⟨e, he, _⟩
    exact absurd he (List.not_mem_nil e)
  | cons head rest ih =>
    intro s hWF hall hmiss
    obtain ⟨key, data⟩ := head
    obtain ⟨hkeyOk, hqtyOk⟩ := hall _ (List.mem_cons_self _ _)
    cases hksome : pyToNat? key with
    | none =>
      rw [hksome] at hkeyOk
      exact absurd hkeyOk (by simp)
    | some eid =>
      cases hfind : s.extra_items.find? (fun x => x.id = eid) with
      | none =>
        simp only [processExtras, hksome, hfind]
      | some xi =>
        cases hq : data.quantity.getD (PyInt.valid 1) with
        | invalid => exact absurd hq hqtyOk
        | valid q =>
          rcases updExtra_spec itemId eid q s hWF with ⟨s', heq, hE', hci, hni, hxi⟩
          simp only [processExtras, hksome, hfind, hq, heq]
          apply ih s' hE'
          · intro e he
            exact hall e (List.mem_cons_of_mem _ he)
          · rcases hmiss with ⟨e, he, hnone⟩
            rcases List.mem_cons.mp he with rfl | hrest
            · simp [hksome, hfind] at hnone
            · refine ⟨e, hrest, ?_⟩
              rw [hxi]
              exact hnone

/-- C2 (amended): the claim says an unresolvable extras entry is skipped
silently with the operation still succeeding. In the routed view the
opposite holds: for EVERY extras dict whose keys parse and whose
quantities are valid, if any entry resolves to no ExtraItem row, add_dish
answers the 404 "Extra item not found" response (processing stops at the
first such entry; the silent-skip policy exists only in the un-routed
CartItemWriteSerializer, cart/serializers.py:196-206). -/
theorem add_item_unresolved_extra_fails_404 (db : List ExtraItem)
    (entries : List (String × ExtraEntry))
    (hall : ∀ e ∈ entries, (pyToNat? e.1).isSome = true ∧
      e.2.quantity.getD (PyInt.valid 1) ≠ PyInt.invalid)
    (hmiss : ∃ e ∈ entries,
      (pyToNat? e.1).bind (fun n => db.find? (fun x => x.id = n)) = none) :
    (add_dish (reqExtras entries) (cartStore db)).1 = CartResponse.extraNotFound := by
  have hred : add_dish (reqExtras entries) (cartStore db)
      = processExtras 1 entries (afterStore db 1 [] 1) := rfl
  rw [hred]
  refine processExtras_extraNotFound 1 entries (afterStore db 1 [] 1) ?_ hall ?_
  · exact ⟨List.nodup_nil, fun r hr => absurd hr (List.not_mem_nil r), List.nodup_nil⟩
  · exact hmiss

/-- Witness for C2-amended at a concrete input: extras \x7b"5": 2, "99":
default\x7d against a table holding only extra 5: the request 404s. -/
theorem add_item_unresolved_extra_fails_404_witness :
    (add_dish (reqExtras [("5", { quantity := some (PyInt.valid 2) }),
        ("99", { quantity := none })]) (cartStore [cheese])).1
      = CartResponse.extraNotFound :=
  add_item_unresolved_extra_fails_404 [cheese]
    [("5", { quantity := some (PyInt.valid 2) }), ("99", { quantity := none })]
    (by decide) (by decide)

/-- C8: get_cart_stat performs no write on any path (the store comes back
unchanged), answers 400 "Cart code not provided" when the query parameter
is absent or empty, 404 "Cart not found" when the code resolves to no
cart, and 200 with the SimpleCartSerializer payload (id, cart_code and the
sum of the item quantities) when it does. -/
theorem get_cart_stat_cases (s : Store) (qp : Option String) :
    (get_cart_stat qp s).2 = s ∧
    (qp = none ∨ qp = some "" → (get_cart_stat qp s).1 = StatResponse.noCartCode) ∧
    (∀ code, qp = some code → code ≠ "" →
      s.carts.find? (fun c => c.cart_code = code) = none →
      (get_cart_stat qp s).1 = StatResponse.cartNotFound) ∧
    (∀ code cart, qp = some code → code ≠ "" →
      s.carts.find? (fun c => c.cart_code = code) = some cart →
      (get_cart_stat qp s).1
        = StatResponse.ok cart.id cart.cart_code (number_of_items s cart.id)) := by
  refine ⟨?_, ?_, ?_, ?_⟩
  · cases qp with
    | none => rfl
    | some code =>
      by_cases hc : code = ""
      · simp only [get_cart_stat, if_pos hc]
      · cases hf : s.carts.find? (fun c => c.cart_code = code) with
        | none => simp only [get_cart_stat, if_neg hc, hf]
        | some cart => simp only [get_cart_stat, if_neg hc, hf]
  · rintro (rfl | rfl)
    · rfl
    · rfl
  · intro code h1 hne hf
    subst h1
    simp only [get_cart_stat, if_neg hne, hf]
  · intro code cart h1 hne hf
    subst h1
    simp only [get_cart_stat, if_neg hne, hf]

/-- Witness for C8 at concrete inputs: on statStore the three observable
outcomes, including the item-count 2 + 3 = 5 of the 200 payload. -/
theorem get_cart_stat_cases_witness :
    (get_cart_stat (some "abc") statStore).1
      = StatResponse.ok 7 "abc" (number_of_items statStore 7) ∧
    number_of_items statStore 7 = 5 ∧
    (get_cart_stat none statStore).1 = StatResponse.noCartCode ∧
    (get_cart_stat (some "zzz") statStore).1 = StatResponse.cartNotFound :=
  ⟨(get_cart_stat_cases statStore (some "abc")).2.2.2 "abc" ⟨7, "abc", "delivery"⟩ rfl
      (by decide) (by decide),
   by decide,
   (get_cart_stat_cases statStore none).2.1 (Or.inl rfl),
   (get_cart_stat_cases statStore (some "zzz")).2.2.1 "zzz" rfl (by decide) (by decide)⟩

/-- C9: verification of a token strictly older than the 300-second default
max age, or of a token whose tag does not check out (any tampering),
answers 400 "Invalid or expired token" and leaves the account table - in
particular every verification flag - untouched: the failure is detected
before any account is read or written. -/
theorem expired_or_tampered_token_rejected (secret : String) (now : Nat) (t : SignedToken)
    (s : AuthStore) :
    (now > t.ts + 300 →
      verify_email_view secret now (some t) s = (VerifyResponse.invalidOrExpired, s)) ∧
    (t.mac ≠ hmacTag secret t.payload t.ts →
      verify_email_view secret now (some t) s = (VerifyResponse.invalidOrExpired, s)) := by
  constructor
  · intro hexp
    have hv : verify_email_token secret t now = none := by
      unfold verify_email_token verify_token unsign
      by_cases hm : t.mac ≠ hmacTag secret t.payload t.ts
      · rw [if_pos hm]
      · rw [if_neg hm, if_pos hexp]
    simp only [verify_email_view, hv]
  · intro hm
    have hv : verify_email_token secret t now = none := by
      unfold verify_email_token verify_token unsign
      rw [if_pos hm]
    simp only [verify_email_view, hv]

/-- Witness for C9 at concrete inputs: a token signed at time 10 verified
at time 311 (age 301 of 300) and a tag-corrupted token verified while
fresh; both are rejected with the store unchanged. -/
theorem expired_or_tampered_token_rejected_witness :
    ((311 : Nat) > 10 + 300 ∧
      verify_email_view "k1" 311 (some goodToken) authStoreFix
        = (VerifyResponse.invalidOrExpired, authStoreFix)) ∧
    (badToken.mac ≠ hmacTag "k1" badToken.payload badToken.ts ∧
      verify_email_view "k1" 100 (some badToken) authStoreFix
        = (VerifyResponse.invalidOrExpired, authStoreFix)) :=
  ⟨⟨by decide, (expired_or_tampered_token_rejected "k1" 311 goodToken authStoreFix).1 (by decide)⟩,
   ⟨by decide, (expired_or_tampered_token_rejected "k1" 100 badToken authStoreFix).2 (by decide)⟩⟩

end Catering
